import Mathlib

/-!
Verification development for the conduit-connector-enhanced-generator
repository: a shallow embedding of the record/payload generators
(`internal/generator.go`), the SSN obfuscator, and the burst rate limiter,
together with theorems checking the specification's claims against them.

Randomness (`math/rand`, gofakeit) and wall-clock time are externalized as
oracle inputs; fallible Go code (panics, error returns) is modelled with
`Option`/`Except`.
-/

set_option maxHeartbeats 1000000

namespace EnhancedGenerator

/-- Operation tag of an opencdc record (`opencdc.Operation`). -/
inductive Operation
  | snapshot
  | create
  | update
  | delete
deriving DecidableEq, Repr

/-! ## Decimal rendering

Go renders the position counter with `strconv.Itoa` and patient ids with
`fmt.Sprintf("%d", ...)` / `"%04d"`.  The model renders decimals through
`Nat.digits`, with a fuel-based twin so that concrete values reduce in the
kernel. -/

/-- Character of the decimal digit `d % 10`. -/
def decDigitChar (d : Nat) : Char := Char.ofNat (48 + d % 10)

/-- Little-endian decimal digits, with explicit fuel so that the kernel can
evaluate it (`decDigits` below instantiates the fuel). -/
def decDigitsAux : Nat → Nat → List Nat
  | 0, _ => []
  | _ + 1, 0 => []
  | fuel + 1, n + 1 => (n + 1) % 10 :: decDigitsAux fuel ((n + 1) / 10)

/-- Little-endian decimal digits of `n` (empty for 0), computable twin of
`Nat.digits 10 n`. -/
def decDigits (n : Nat) : List Nat := decDigitsAux n n

/-- Model of Go decimal integer formatting (`strconv.Itoa`, `%d`) on naturals. -/
def decRepr (n : Nat) : String :=
  if n = 0 then "0" else String.mk ((decDigits n).reverse.map decDigitChar)

/-- Numeric value of a decimal digit character. -/
def decVal (c : Char) : Nat := c.toNat - 48

/-- Parse back a decimal string; left inverse of `decRepr`. -/
def decUnRepr (s : String) : Nat := Nat.ofDigits 10 (s.data.map decVal).reverse

theorem decDigitsAux_eq (fuel : Nat) : ∀ n : Nat, n ≤ fuel → decDigitsAux fuel n = Nat.digits 10 n := by
  induction fuel with
  | zero =>
    intro n hn
    have : n = 0 := Nat.le_zero.mp hn
    subst this
    simp [decDigitsAux, Nat.digits_zero]
  | succ fuel ih =>
    intro n hn
    match n with
    | 0 => simp [decDigitsAux, Nat.digits_zero]
    | m + 1 =>
      have hdiv : (m + 1) / 10 ≤ fuel := by
        have h1 : (m + 1) / 10 < m + 1 := Nat.div_lt_self (Nat.succ_pos m) (by norm_num)
        omega
      rw [decDigitsAux, ih _ hdiv, Nat.digits_def' (b := 10) (by norm_num) (Nat.succ_pos m)]

theorem decDigits_eq (n : Nat) : decDigits n = Nat.digits 10 n :=
  decDigitsAux_eq n n (Nat.le_refl n)

theorem decVal_decDigitChar {d : Nat} (h : d < 10) : decVal (decDigitChar d) = d := by
  have key : ∀ k : Fin 10, decVal (decDigitChar k.1) = k.1 := by decide
  exact key ⟨d, h⟩

theorem decUnRepr_decRepr : ∀ n : Nat, decUnRepr (decRepr n) = n := by
  intro n
  by_cases h : n = 0
  · subst h; rfl
  · have hlt : ∀ d ∈ (decDigits n).reverse, decVal (decDigitChar d) = d := by
      intro d hd
      refine decVal_decDigitChar ?_
      refine Nat.digits_lt_base (b := 10) (m := n) (by norm_num) ?_
      rw [← decDigits_eq]
      exact (List.mem_reverse).mp hd
    simp only [decRepr, if_neg h, decUnRepr]
    show Nat.ofDigits 10 (((decDigits n).reverse.map decDigitChar).map decVal).reverse = n
    rw [List.map_map]
    have hmap : (decDigits n).reverse.map (decVal ∘ decDigitChar)
        = (decDigits n).reverse.map id :=
      List.map_congr_left (fun d hd => hlt d hd)
    rw [hmap, List.map_id, List.reverse_reverse, decDigits_eq, Nat.ofDigits_digits]

theorem decRepr_injective : Function.Injective decRepr :=
  Function.LeftInverse.injective decUnRepr_decRepr

theorem decRepr_length_four {n : Nat} (h1 : 1000 ≤ n) (h2 : n ≤ 9999) :
    (decRepr n).length = 4 := by
  have hn : n ≠ 0 := by omega
  have hlog : Nat.log 10 n = 3 :=
    Nat.log_eq_of_pow_le_of_lt_pow (by norm_num; omega) (by norm_num; omega)
  simp only [decRepr, if_neg hn]
  show ((decDigits n).reverse.map decDigitChar).length = 4
  rw [List.length_map, List.length_reverse, decDigits_eq,
    Nat.digits_len 10 n (by norm_num) hn, hlog]

theorem decDigitChar_isDigit (d : Nat) : (decDigitChar d).isDigit = true := by
  have h : d % 10 < 10 := Nat.mod_lt _ (by norm_num)
  have key : ∀ k : Fin 10, (Char.ofNat (48 + k.1)).isDigit = true := by decide
  exact key ⟨d % 10, h⟩

theorem decRepr_all_isDigit (n : Nat) : ∀ c ∈ (decRepr n).data, c.isDigit = true := by
  intro c hc
  by_cases h : n = 0
  · subst h
    have : c = '0' := by simpa [decRepr] using hc
    subst this
    decide
  · simp only [decRepr, if_neg h] at hc
    have hc2 : c ∈ (decDigits n).reverse.map decDigitChar := hc
    obtain ⟨d, _, rfl⟩ := List.mem_map.mp hc2
    exact decDigitChar_isDigit d

/-! ## Field-type value generation (`randomStructuredData`, `randomRawData`) -/

/-- Model of Go `fmt.Sprintf("%04d", n)` for `n ≤ 9999`: exactly four decimal
digit characters with leading zeros. -/
def pad4 (n : Nat) : String :=
  String.mk [decDigitChar (n / 1000), decDigitChar (n / 100), decDigitChar (n / 10), decDigitChar n]

/-- Model of Go `fmt.Sprintf("%02d", n)` for `n ≤ 99`. -/
def pad2 (n : Nat) : String :=
  String.mk [decDigitChar (n / 10), decDigitChar n]

/-- Semantic value of one generated field, as stored in
`opencdc.StructuredData` (a `map[string]any`): the Go dynamic types that
`randomStructuredData` puts in the map.  Time instants are modelled as
naturals (nanoseconds since the epoch); durations carry their second count. -/
inductive Value
  | vInt (n : Nat)
  | vString (s : String)
  | vTime (t : Nat)
  | vDuration (seconds : Nat)
  | vBool (b : Bool)
deriving DecidableEq, Repr

/-- Known field type tags (`KnownTypes` in generator.go). -/
def KnownTypes : List String :=
  ["int", "string", "time", "bool", "duration",
   "name", "email", "employeeid", "ssn", "creditcard", "ordernumber"]

/-- Randomness oracle for one `generateData` call.  Each component is indexed
by the position of the field being generated, modelling fresh draws from
`math/rand` and gofakeit: `randInt` is `rand.Int()`, `entropy` the raw draw
behind `rand.Intn` / `gofakeit.Number` (the model takes it modulo the range),
`word`/`name`/`email`/`uuid` the gofakeit string generators, and `now` the
wall clock read by `time.Now()`. -/
structure Rand where
  randInt : Nat → Nat
  entropy : Nat → Nat
  word : Nat → String
  name : Nat → String
  email : Nat → String
  uuid : Nat → String
  now : Nat

/-- One arm of the `switch typ` in `randomStructuredData` (generator.go
lines 147-182), for the field at position `k`.  `none` models the
`default: panic(...)` branch taken on an unknown type tag. -/
def genValue (r : Rand) (k : Nat) (typ : String) : Option Value :=
  if typ = "int" then some (.vInt (r.randInt k))
  else if typ = "string" then some (.vString (r.word k))
  else if typ = "time" then some (.vTime r.now)
  else if typ = "duration" then some (.vDuration (r.entropy k % 1000))
  else if typ = "bool" then some (.vBool (r.randInt k % 2 == 0))
  else if typ = "name" then some (.vString (r.name k))
  else if typ = "email" then some (.vString (r.email k))
  else if typ = "employeeid" then
    some (.vString ("EMP" ++ decRepr (1000 + r.entropy k % 9000)))
  else if typ = "ssn" then
    some (.vString ("XXX-XX-" ++ pad4 (r.entropy k % 10000)))
  else if typ = "creditcard" then
    some (.vString ("XXXXXXXXXXXX" ++ pad4 (r.entropy k % 10000)))
  else if typ = "ordernumber" then
    some (.vString ("ORD-" ++ r.uuid k))
  else none

/-- Recursion behind `randomStructuredData`: Go ranges over the field map;
the model walks an association list, tracking the field position `k` for the
randomness oracle.  A single unknown tag makes the whole call fail (panic). -/
def randomStructuredDataAux (r : Rand) : Nat → List (String × String) → Option (List (String × Value))
  | _, [] => some []
  | k, (f, t) :: rest =>
    match genValue r k t, randomStructuredDataAux r (k + 1) rest with
    | some v, some m => some ((f, v) :: m)
    | _, _ => none

/-- Structured data from a field specification (`randomStructuredData` in
generator.go).  Go iterates a `map[string]string`; the model takes the
field-name/type pairs as an association list. -/
def randomStructuredData (r : Rand) (fields : List (String × String)) :
    Option (List (String × Value)) :=
  randomStructuredDataAux r 0 fields

/-- JSON document, at AST level (the byte-level rendering done by
goccy/go-json is external library code). -/
inductive Json
  | num (n : Nat)
  | str (s : String)
  | jbool (b : Bool)
  | obj (members : List (String × Json))

/-- Textual timestamp of a time value, as `encoding/json` renders a
`time.Time` (RFC3339).  The claims never depend on the exact text, only on
its being a string determined by the instant; the model renders the
nanosecond count. -/
def timeRepr (t : Nat) : String := decRepr t

/-- JSON encoding of one structured value, following `encoding/json`
marshalling of the Go dynamic types: ints as numbers, strings natural,
`time.Time` as a timestamp string, `time.Duration` as its nanosecond count,
bools natural. -/
def encodeValue : Value → Json
  | .vInt n => .num n
  | .vString s => .str s
  | .vTime t => .str (timeRepr t)
  | .vDuration seconds => .num (seconds * 1000000000)
  | .vBool b => .jbool b

/-- JSON object for a whole structured mapping. -/
def encodeStructured (m : List (String × Value)) : Json :=
  .obj (m.map fun p => (p.1, encodeValue p.2))

/-- Raw data generation (`randomRawData` in generator.go): the JSON
marshalling of `randomStructuredData` on the same field specification — by
construction not an independent code path.  `none` models the panic
propagated from `randomStructuredData`. -/
def randomRawData (r : Rand) (fields : List (String × String)) : Option Json :=
  (randomStructuredData r fields).map encodeStructured

/-! ## Record generator (`baseRecordGenerator`) -/

/-- Shape of an `opencdc.Record` as built by `baseRecordGenerator.Next`:
position, operation, the optional collection metadata entry, the creation
timestamp metadata, the random key, and the two optional payload slots
(`nil` payload = `none`).  The payload type is a parameter, as
`opencdc.Data` is an interface. -/
structure Record (α : Type) where
  position : String
  operation : Operation
  collectionMeta : Option String
  createdAt : Nat
  key : String
  payloadBefore : Option α
  payloadAfter : Option α

/-- State of a `baseRecordGenerator`.  The stored `generateData` closure is
modelled as a function of its invocation index, so that successive calls may
return different (random) values; `none` models a closure that panics. -/
structure BaseRecordGenerator (α : Type) where
  collection : String
  operations : List Operation
  generateData : Nat → Option α
  count : Nat

/-- Per-call randomness and clock for one `Next` call: the raw draw behind
`rand.Intn(len(g.operations))`, the `randomWord()` key, and the
`time.Now()` metadata timestamp. -/
structure NextRand where
  opPick : Nat
  key : String
  createdAt : Nat

/-- The `switch rec.Operation` of `baseRecordGenerator.Next` (generator.go
lines 76-84): populate the payload slots of the freshly built record `base`
per the operation, drawing payloads from the stored closure `gen` starting at
invocation index `j` (one call for snapshot/create/delete, two for update).
`none` models a panicking closure. -/
def buildRecord {α : Type} (base : Record α) (gen : Nat → Option α) (j : Nat) :
    Operation → Option (Record α)
  | .snapshot => (gen j).map fun d => { base with payloadAfter := some d }
  | .create => (gen j).map fun d => { base with payloadAfter := some d }
  | .update =>
    match gen j, gen (j + 1) with
    | some b, some a => some { base with payloadBefore := some b, payloadAfter := some a }
    | _, _ => none
  | .delete => (gen j).map fun d => { base with payloadBefore := some d }

/-- One call of `baseRecordGenerator.Next` (generator.go lines 60-87):
increment the counter, stamp position/metadata/key, pick an operation
uniformly from the allowed list, and populate the payload slots per the
operation via `buildRecord`.  `none` models the panics Go can raise here:
`rand.Intn(0)` on an empty operation list, or a panicking `generateData`
closure. -/
def BaseRecordGenerator.next {α : Type} (g : BaseRecordGenerator α) (rnd : NextRand) :
    Option (Record α × BaseRecordGenerator α) :=
  if hops : g.operations.length = 0 then none
  else
    let op := g.operations.get ⟨rnd.opPick % g.operations.length, Nat.mod_lt _ (Nat.pos_of_ne_zero hops)⟩
    let base : Record α :=
      { position := decRepr (g.count + 1)
        operation := op
        collectionMeta := if g.collection = "" then none else some g.collection
        createdAt := rnd.createdAt
        key := rnd.key
        payloadBefore := none
        payloadAfter := none }
    (buildRecord base g.generateData (2 * g.count) op).map
      fun r => (r, { g with count := g.count + 1 })

/-- `NewFileRecordGenerator` (generator.go lines 93-111): `contents` is the
result of the single `os.ReadFile` at construction time (`none`: the file
could not be read).  On a read failure construction errors and no generator
is produced; otherwise the stored closure returns the cached bytes on every
invocation — there is no further file access in the model, mirroring the
cache in the code. -/
def NewFileRecordGenerator (collection : String) (operations : List Operation)
    (contents : Option (List UInt8)) :
    Except String (BaseRecordGenerator (List UInt8)) :=
  match contents with
  | none => .error "failed to read file"
  | some bytes =>
    .ok { collection := collection, operations := operations,
          generateData := fun _ => some bytes, count := 0 }

/-- `NewStructuredRecordGenerator` (generator.go lines 116-128): always
returns `nil` error; the field specification is not inspected until the
stored closure runs.  `rs k` is the randomness consumed by the k-th closure
invocation. -/
def NewStructuredRecordGenerator (collection : String) (operations : List Operation)
    (fields : List (String × String)) (rs : Nat → Rand) :
    Except String (BaseRecordGenerator (List (String × Value))) :=
  .ok { collection := collection, operations := operations,
        generateData := fun k => randomStructuredData (rs k) fields, count := 0 }

/-- `NewRawRecordGenerator` (generator.go lines 133-145): same shape as the
structured constructor, with the closure calling `randomRawData`. -/
def NewRawRecordGenerator (collection : String) (operations : List Operation)
    (fields : List (String × String)) (rs : Nat → Rand) :
    Except String (BaseRecordGenerator Json) :=
  .ok { collection := collection, operations := operations,
        generateData := fun k => randomRawData (rs k) fields, count := 0 }

/-- Generator state after `n` `Next` calls (`none` as soon as one call
panicked), with `rnds i` the randomness of the i-th call. -/
def genIter {α : Type} (rnds : Nat → NextRand) (g : BaseRecordGenerator α) :
    Nat → Option (BaseRecordGenerator α)
  | 0 => some g
  | n + 1 => (genIter rnds g n).bind fun g' => (g'.next (rnds n)).map Prod.snd

/-- Record returned by the (n+1)-st `Next` call on `g` (0-indexed `n`). -/
def nthRecord {α : Type} (rnds : Nat → NextRand) (g : BaseRecordGenerator α) (n : Nat) :
    Option (Record α) :=
  (genIter rnds g n).bind fun g' => (g'.next (rnds n)).map Prod.fst

/-! ## Domain document generators (`Generator`, FHIR / HL7 v3) -/

/-- Domain document generator state (`Generator` in generator.go): the
per-instance patient identity counter.  The seeded `*rand.Rand` source held
next to it only feeds the random draws, which the model externalizes as
oracle inputs, so the seed does not appear in the state. -/
structure Generator where
  patientIDCounter : Nat
deriving DecidableEq, Repr

/-- `NewGenerator` (generator.go lines 201-206): counter starts at 0; the
seed only initializes the externalized randomness source. -/
def NewGenerator (_seed : Int) : Generator := { patientIDCounter := 0 }

/-- Random draws consumed while producing one patient document: the gofakeit
name/address strings, the gender pick (`rand.Intn(2)`), and the raw draws
behind the birth date components (the model takes them modulo the ranges). -/
structure PatientRand where
  firstName : String
  lastName : String
  street : String
  city : String
  state : String
  zip : String
  genderPick : Nat
  yearPick : Nat
  monthPick : Nat
  dayPick : Nat

/-- Uniform gender draw (`genders[g.rand.Intn(len(genders))]`). -/
def genderOf (pick : Nat) : String := if pick % 2 = 0 then "male" else "female"

/-- Name entry of a FHIR patient. -/
structure FHIRName where
  family : List String
  given : List String

/-- Address entry of a FHIR patient. -/
structure FHIRAddress where
  line : List String
  city : String
  state : String
  postalCode : String
  country : String

/-- `FHIRPatient` (generator.go lines 239-254). -/
structure FHIRPatient where
  id : String
  name : List FHIRName
  birthDate : String
  gender : String
  address : List FHIRAddress

/-- `Generator.GenerateFHIRPatient` (generator.go lines 257-298): increments
the shared counter and uses it, stringified, as the id; birth date is
`%04d-%02d-%02d` with year in [1920,2020), month in [1,12], day in [1,28]. -/
def Generator.GenerateFHIRPatient (g : Generator) (r : PatientRand) :
    FHIRPatient × Generator :=
  let counter := g.patientIDCounter + 1
  ({ id := decRepr counter
     name := [{ family := [r.lastName], given := [r.firstName] }]
     birthDate :=
       pad4 (1920 + r.yearPick % 100) ++ "-" ++ pad2 (1 + r.monthPick % 12)
         ++ "-" ++ pad2 (1 + r.dayPick % 28)
     gender := genderOf r.genderPick
     address := [{ line := [r.street], city := r.city, state := r.state,
                   postalCode := r.zip, country := "USA" }] },
   { patientIDCounter := counter })

/-- Name entry of an HL7 v3 patient. -/
structure HL7v3Name where
  given : List String
  family : String

/-- Address entry of an HL7 v3 patient. -/
structure HL7v3Address where
  street : List String
  city : String
  state : String
  zipCode : String

/-- `HL7v3Patient` (generator.go lines 416-431), at document level (the XML
rendering by `encoding/xml` is external library code). -/
structure HL7v3Patient where
  id : Nat
  name : List HL7v3Name
  gender : String
  birthTime : String
  address : List HL7v3Address

/-- `Generator.GenerateHL7v3Message` (generator.go lines 434-488): increments
the shared counter and uses it directly as the numeric id; gender is coded
`M`/`F`; birth time is the `20060102150405` rendering of a midnight date
with year in [1950,2000), month in [1,12], day in [1,28]. -/
def Generator.GenerateHL7v3Message (g : Generator) (r : PatientRand) :
    HL7v3Patient × Generator :=
  let counter := g.patientIDCounter + 1
  ({ id := counter
     name := [{ given := [r.firstName], family := r.lastName }]
     gender := if genderOf r.genderPick = "male" then "M" else "F"
     birthTime :=
       pad4 (1950 + r.yearPick % 50) ++ pad2 (1 + r.monthPick % 12)
         ++ pad2 (1 + r.dayPick % 28) ++ "000000"
     address := [{ street := [r.street], city := r.city, state := r.state,
                   zipCode := r.zip }] },
   { patientIDCounter := counter })

/-- Generator state of a fresh instance after producing `n` FHIR patients. -/
def fhirIter (rs : Nat → PatientRand) : Nat → Generator
  | 0 => NewGenerator 0
  | n + 1 => (Generator.GenerateFHIRPatient (fhirIter rs n) (rs n)).2

/-- The (n+1)-st FHIR patient produced by a fresh instance (0-indexed `n`). -/
def nthFHIR (rs : Nat → PatientRand) (n : Nat) : FHIRPatient :=
  (Generator.GenerateFHIRPatient (fhirIter rs n) (rs n)).1

/-- Generator state of a fresh instance after producing `n` HL7 v3 documents. -/
def hl7v3Iter (rs : Nat → PatientRand) : Nat → Generator
  | 0 => NewGenerator 0
  | n + 1 => (Generator.GenerateHL7v3Message (hl7v3Iter rs n) (rs n)).2

/-- The (n+1)-st HL7 v3 document produced by a fresh instance (0-indexed `n`). -/
def nthHL7v3 (rs : Nat → PatientRand) (n : Nat) : HL7v3Patient :=
  (Generator.GenerateHL7v3Message (hl7v3Iter rs n) (rs n)).1

/-! ## Burst rate limiter

Modelled from the spec: the burst rate limiter implementation is not among
the provided source files (only its test, `testSourceRateLimit` in the source
tests, exercises it), so the state machine is taken from spec section 4.5 —
states Bursting/Sleeping, phase-start instant, last-emission instant, wait
computation per attempt — with one refinement the in-repo test forces: on the
`Bursting → Sleeping` transition the new phase start is anchored at the end
of the burst window (phase start + burst duration), not at the attempt
instant; the test's final step (a read issued 50ms into the sleep window must
wait the remaining 50ms, not a full 100ms) and the spec's own section 8
scenario ("waits the remaining ~100ms minus elapsed overage") both require
this anchoring.  Instants and durations are integer milliseconds. -/

/-- Cycle phase of the limiter. -/
inductive Phase
  | bursting
  | sleeping
deriving DecidableEq, Repr

/-- Static limiter configuration: burst window length, sleep window length
(0 = no bursting), and the steady-rate minimum gap between emissions
(`1/rate`; 0 = no steady-rate cap). -/
structure LimiterConfig where
  burstDuration : Int
  sleepDuration : Int
  rateGap : Int
deriving DecidableEq, Repr

/-- Mutable limiter state: current phase, instant the phase began, and the
instant of the last successful emission (`none` before the first). -/
structure LimiterState where
  phase : Phase
  phaseStart : Int
  lastEmission : Option Int
deriving DecidableEq, Repr

/-- Steady-rate cap applied inside the burst window (spec section 4.5 case
3): with a configured rate, wait until the gap since the last emission
reaches `rateGap`; otherwise no wait.  The emission lands at `now + wait`. -/
def rateCapWait (c : LimiterConfig) (s : LimiterState) (now : Int) : Int × LimiterState :=
  if 0 < c.rateGap then
    match s.lastEmission with
    | none => (0, { s with lastEmission := some now })
    | some last =>
      let w := max 0 (last + c.rateGap - now)
      (w, { s with lastEmission := some (now + w) })
  else (0, { s with lastEmission := some now })

/-- Attempt handling while in the sleeping phase (spec section 4.5 case 1):
if sleep time remains, the wait is exactly that remainder and the machine
stays asleep for its duration (the transition back to bursting is observed at
the next attempt); if the sleep window has already elapsed, transition to
bursting — phase start reset to the current instant — and apply the
steady-rate cap. -/
def sleepingWait (c : LimiterConfig) (s : LimiterState) (now : Int) : Int × LimiterState :=
  let rem := s.phaseStart + c.sleepDuration - now
  if 0 < rem then
    (rem, { s with lastEmission := some (now + rem) })
  else
    rateCapWait c { s with phase := .bursting, phaseStart := now } now

/-- One emission attempt at instant `now` (spec section 4.5): returns the
wait the caller must honor and the advanced state.  A bursting-phase attempt
at or after phase-start + burst duration (with nonzero sleep duration) is
redirected into the sleep wait, the sleep window anchored at the burst
window's end. -/
def tick (c : LimiterConfig) (s : LimiterState) (now : Int) : Int × LimiterState :=
  match s.phase with
  | .sleeping => sleepingWait c s now
  | .bursting =>
    if c.sleepDuration ≠ 0 ∧ s.phaseStart + c.burstDuration ≤ now then
      sleepingWait c { s with phase := .sleeping, phaseStart := s.phaseStart + c.burstDuration } now
    else
      rateCapWait c s now

/-! ## Obfuscator -/

/-- Model of `strings.Split(s, "-")`: split at every dash, keeping empty
parts; the empty string yields one empty part, as in Go. -/
def splitDashList : List Char → List (List Char)
  | [] => [[]]
  | c :: rest =>
    match splitDashList rest with
    | [] => [[]]
    | p :: ps => if c = '-' then [] :: p :: ps else (c :: p) :: ps

/-- String-level `strings.Split(s, "-")`. -/
def splitDash (s : String) : List String := (splitDashList s.data).map String.mk

/-- `ObfuscateSSN` (obfuscator package): keep the part after the second dash
when the split yields exactly 3 parts, otherwise keep the last 4 characters.
`none` models the out-of-range slice panic of `ssn[len(ssn)-4:]` on inputs
shorter than 4.  Go indexes bytes; the model indexes characters, which
coincide on ASCII input. -/
def ObfuscateSSN (ssn : String) : Option String :=
  let parts := splitDash ssn
  if parts.length ≠ 3 then
    if 4 ≤ ssn.length then
      some ("XXX-XX-" ++ String.mk (ssn.data.drop (ssn.length - 4)))
    else none
  else some ("XXX-XX-" ++ parts.getD 2 "")

/-! ## Spec-side shape predicates

These follow the spec's wording (the regexes of sections 4.1 and 8), to be
compared against the values the embedded code produces. -/

/-- Four decimal digit characters (the regex fragment \d{4}). -/
def fourDigits (t : String) : Prop := t.length = 4 ∧ ∀ c ∈ t.data, c.isDigit = true

/-- Spec shape of ssn values: XXX-XX- followed by four digits. -/
def ssnShape (s : String) : Prop := ∃ t, s = "XXX-XX-" ++ t ∧ fourDigits t

/-- Spec shape of creditcard values: twelve or more X characters followed by
four digits. -/
def creditcardShape (s : String) : Prop :=
  ∃ k t, 12 ≤ k ∧ s = String.mk (List.replicate k 'X') ++ t ∧ fourDigits t

/-- Spec shape of employeeid values: EMP followed by four digits. -/
def employeeidShape (s : String) : Prop := ∃ t, s = "EMP" ++ t ∧ fourDigits t

/-- Character class of a canonical UUID rendering: [a-f0-9-]. -/
def uuidChar (c : Char) : Bool :=
  c.isDigit || (Nat.ble 97 c.toNat && Nat.ble c.toNat 102) || c == '-'

/-- Spec shape of ordernumber values: ORD- followed by a 36-character
canonical UUID. -/
def ordernumberShape (s : String) : Prop :=
  ∃ t, s = "ORD-" ++ t ∧ t.length = 36 ∧ ∀ c ∈ t.data, uuidChar c = true

/-- Contract of `gofakeit.UUID()` (external library): every draw is a
36-character canonical form over [a-f0-9-]. -/
def CanonicalUUIDs (r : Rand) : Prop :=
  ∀ k, (r.uuid k).length = 36 ∧ ∀ c ∈ (r.uuid k).data, uuidChar c = true

/-- Declared shape of a generated value for each type tag (spec sections 4.1
and 8): basic tags carry the matching native kind, rich string tags satisfy
their regex shape. -/
def valueShape (typ : String) (v : Value) : Prop :=
  if typ = "int" then ∃ n, v = .vInt n
  else if typ = "string" then ∃ s, v = .vString s
  else if typ = "time" then ∃ t, v = .vTime t
  else if typ = "duration" then ∃ d, v = .vDuration d ∧ d < 1000
  else if typ = "bool" then ∃ b, v = .vBool b
  else if typ = "name" then ∃ s, v = .vString s
  else if typ = "email" then ∃ s, v = .vString s
  else if typ = "employeeid" then ∃ s, v = .vString s ∧ employeeidShape s
  else if typ = "ssn" then ∃ s, v = .vString s ∧ ssnShape s
  else if typ = "creditcard" then ∃ s, v = .vString s ∧ creditcardShape s
  else if typ = "ordernumber" then ∃ s, v = .vString s ∧ ordernumberShape s
  else False

/-- Field/value correspondence asserted by claim C3: same field name, the
declared shape, and (for creditcard) the literal twelve-X form the code
emits. -/
def fieldValueMatches (ft : String × String) (fv : String × Value) : Prop :=
  fv.1 = ft.1 ∧ valueShape ft.2 fv.2 ∧
    (ft.2 = "creditcard" → ∃ t, fv.2 = .vString ("XXXXXXXXXXXX" ++ t) ∧ fourDigits t)

/-! ## Facts about the decimal helpers -/

theorem fourDigits_pad4 (n : Nat) : fourDigits (pad4 n) := by
  constructor
  · rfl
  · intro c hc
    have hmem : c ∈ [decDigitChar (n / 1000), decDigitChar (n / 100),
        decDigitChar (n / 10), decDigitChar n] := hc
    simp only [List.mem_cons, List.not_mem_nil, or_false] at hmem
    rcases hmem with h | h | h | h <;> (subst h; exact decDigitChar_isDigit _)

theorem fourDigits_decRepr {n : Nat} (h1 : 1000 ≤ n) (h2 : n ≤ 9999) :
    fourDigits (decRepr n) :=
  ⟨decRepr_length_four h1 h2, decRepr_all_isDigit n⟩

/-! ## Claim C3 machinery -/

theorem genValue_known (r : Rand) (huuid : CanonicalUUIDs r) (k : Nat) {t : String}
    (ht : t ∈ KnownTypes) :
    ∃ v, genValue r k t = some v ∧ valueShape t v ∧
      (t = "creditcard" → ∃ u, v = .vString ("XXXXXXXXXXXX" ++ u) ∧ fourDigits u) := by
  have hmod9000 : r.entropy k % 9000 < 9000 := Nat.mod_lt _ (by norm_num)
  simp only [KnownTypes, List.mem_cons, List.not_mem_nil, or_false] at ht
  rcases ht with rfl | rfl | rfl | rfl | rfl | rfl | rfl | rfl | rfl | rfl | rfl
  · exact ⟨.vInt (r.randInt k), rfl, ⟨_, rfl⟩, by simp⟩
  · exact ⟨.vString (r.word k), rfl, ⟨_, rfl⟩, by simp⟩
  · exact ⟨.vTime r.now, rfl, ⟨_, rfl⟩, by simp⟩
  · exact ⟨.vBool (r.randInt k % 2 == 0), rfl, ⟨_, rfl⟩, by simp⟩
  · exact ⟨.vDuration (r.entropy k % 1000), rfl,
      ⟨_, rfl, Nat.mod_lt _ (by norm_num)⟩, by simp⟩
  · exact ⟨.vString (r.name k), rfl, ⟨_, rfl⟩, by simp⟩
  · exact ⟨.vString (r.email k), rfl, ⟨_, rfl⟩, by simp⟩
  · exact ⟨.vString ("EMP" ++ decRepr (1000 + r.entropy k % 9000)), rfl,
      ⟨_, rfl, decRepr (1000 + r.entropy k % 9000), rfl,
        fourDigits_decRepr (by omega) (by omega)⟩, by simp⟩
  · exact ⟨.vString ("XXX-XX-" ++ pad4 (r.entropy k % 10000)), rfl,
      ⟨_, rfl, pad4 (r.entropy k % 10000), rfl, fourDigits_pad4 _⟩, by simp⟩
  · exact ⟨.vString ("XXXXXXXXXXXX" ++ pad4 (r.entropy k % 10000)), rfl,
      ⟨_, rfl, 12, pad4 (r.entropy k % 10000), by norm_num, rfl, fourDigits_pad4 _⟩,
      fun _ => ⟨pad4 (r.entropy k % 10000), rfl, fourDigits_pad4 _⟩⟩
  · exact ⟨.vString ("ORD-" ++ r.uuid k), rfl,
      ⟨_, rfl, r.uuid k, rfl, (huuid k).1, (huuid k).2⟩, by simp⟩

theorem randomStructuredDataAux_known (r : Rand) (huuid : CanonicalUUIDs r) :
    ∀ (fields : List (String × String)) (k : Nat),
      (∀ p ∈ fields, p.2 ∈ KnownTypes) →
      ∃ m, randomStructuredDataAux r k fields = some m ∧
        List.Forall₂ fieldValueMatches fields m := by
  intro fields
  induction fields with
  | nil => exact fun k _ => ⟨[], rfl, List.Forall₂.nil⟩
  | cons p rest ih =>
    intro k hknown
    obtain ⟨f, t⟩ := p
    obtain ⟨v, hv, hshape, hcc⟩ :=
      genValue_known r huuid k (hknown (f, t) (List.mem_cons_self _ _))
    obtain ⟨m, hm, hforall⟩ := ih (k + 1) (fun q hq => hknown q (List.mem_cons_of_mem _ hq))
    refine ⟨(f, v) :: m, ?_, List.Forall₂.cons ⟨rfl, hshape, hcc⟩ hforall⟩
    simp [randomStructuredDataAux, hv, hm]

theorem randomStructuredDataAux_keys (r : Rand) :
    ∀ (fields : List (String × String)) (k : Nat) (m : List (String × Value)),
      randomStructuredDataAux r k fields = some m →
      m.map Prod.fst = fields.map Prod.fst := by
  intro fields
  induction fields with
  | nil =>
    intro k m hm
    simp only [randomStructuredDataAux, Option.some.injEq] at hm
    subst hm
    rfl
  | cons p rest ih =>
    intro k m hm
    obtain ⟨f, t⟩ := p
    simp only [randomStructuredDataAux] at hm
    cases hgv : genValue r k t with
    | none => rw [hgv] at hm; exact absurd hm (by simp)
    | some v =>
      cases haux : randomStructuredDataAux r (k + 1) rest with
      | none => rw [hgv, haux] at hm; exact absurd hm (by simp)
      | some m2 =>
        rw [hgv, haux] at hm
        simp only [Option.some.injEq] at hm
        subst hm
        simp [ih (k + 1) m2 haux]

/-! ## Record generator invariants -/

/-- Slot rule of spec section 3: which payload slots (before, after) an
operation tag populates. -/
def specSlots : Operation → Bool × Bool
  | .snapshot => (false, true)
  | .create => (false, true)
  | .update => (true, true)
  | .delete => (true, false)

/-- Structural facts about one successful `buildRecord`: only the payload
slots of `base` change, they follow the slot rule of the operation, and every
stored payload came out of the closure. -/
theorem buildRecord_inv {α : Type} {base : Record α} {gen : Nat → Option α}
    {j : Nat} {op : Operation} {r : Record α}
    (hb : base.payloadBefore = none) (ha : base.payloadAfter = none)
    (h : buildRecord base gen j op = some r) :
    r.position = base.position ∧ r.operation = base.operation ∧
    (r.payloadBefore.isSome, r.payloadAfter.isSome) = specSlots op ∧
    (∀ d, r.payloadBefore = some d → ∃ i, gen i = some d) ∧
    (∀ d, r.payloadAfter = some d → ∃ i, gen i = some d) := by
  cases op with
  | snapshot =>
    obtain ⟨d, hd, hrd⟩ := Option.map_eq_some'.mp h
    subst hrd
    exact ⟨rfl, rfl, by simp [specSlots, hb],
      fun d2 hd2 => absurd (hb ▸ hd2) (by simp),
      fun d2 hd2 => ⟨j, by simpa using hd2 ▸ hd⟩⟩
  | create =>
    obtain ⟨d, hd, hrd⟩ := Option.map_eq_some'.mp h
    subst hrd
    exact ⟨rfl, rfl, by simp [specSlots, hb],
      fun d2 hd2 => absurd (hb ▸ hd2) (by simp),
      fun d2 hd2 => ⟨j, by simpa using hd2 ▸ hd⟩⟩
  | update =>
    simp only [buildRecord] at h
    cases hj : gen j with
    | none => rw [hj] at h; exact absurd h (by simp)
    | some b =>
      cases hj2 : gen (j + 1) with
      | none => rw [hj, hj2] at h; exact absurd h (by simp)
      | some a =>
        rw [hj, hj2] at h
        simp only [Option.some.injEq] at h
        subst h
        exact ⟨rfl, rfl, by simp [specSlots],
          fun d2 hd2 => ⟨j, by simpa using hd2 ▸ hj⟩,
          fun d2 hd2 => ⟨j + 1, by simpa using hd2 ▸ hj2⟩⟩
  | delete =>
    obtain ⟨d, hd, hrd⟩ := Option.map_eq_some'.mp h
    subst hrd
    exact ⟨rfl, rfl, by simp [specSlots, ha],
      fun d2 hd2 => ⟨j, by simpa using hd2 ▸ hd⟩,
      fun d2 hd2 => absurd (ha ▸ hd2) (by simp)⟩

/-- Structural facts about one successful `Next` call: the state advance, the
position stamp, the operation/slot correspondence, and the provenance of the
payloads from the stored closure. -/
theorem next_inv {α : Type} {g : BaseRecordGenerator α} {rnd : NextRand}
    {r : Record α} {g2 : BaseRecordGenerator α}
    (h : g.next rnd = some (r, g2)) :
    g2 = { g with count := g.count + 1 } ∧
    r.position = decRepr (g.count + 1) ∧
    (r.payloadBefore.isSome, r.payloadAfter.isSome) = specSlots r.operation ∧
    (∀ d, r.payloadBefore = some d → ∃ j, g.generateData j = some d) ∧
    (∀ d, r.payloadAfter = some d → ∃ j, g.generateData j = some d) := by
  unfold BaseRecordGenerator.next at h
  split at h
  · exact Option.noConfusion h
  · obtain ⟨r0, hr0, hpair⟩ := Option.map_eq_some'.mp h
    obtain ⟨hr, hg⟩ := Prod.mk.injEq .. ▸ hpair
    subst hr
    obtain ⟨hpos, hop, hslots, hbefore, hafter⟩ := buildRecord_inv rfl rfl hr0
    exact ⟨hg.symm, hpos, hop ▸ hslots, hbefore, hafter⟩

/-- A `Next` call whose stored closure always panics produces no record. -/
theorem next_none {α : Type} (g : BaseRecordGenerator α) (rnd : NextRand)
    (hdata : ∀ j, g.generateData j = none) : g.next rnd = none := by
  unfold BaseRecordGenerator.next
  split
  · rfl
  · have hb : ∀ (base : Record α) j op, buildRecord base g.generateData j op = none := by
      intro base j op
      cases op <;> simp [buildRecord, hdata]
    simp only [hb, Option.map_none']

/-- `genIter` only advances the counter. -/
theorem genIter_inv {α : Type} (rnds : Nat → NextRand) (g : BaseRecordGenerator α) :
    ∀ n g2, genIter rnds g n = some g2 → g2 = { g with count := g.count + n } := by
  intro n
  induction n with
  | zero =>
    intro g2 h
    simp only [genIter, Option.some.injEq] at h
    subst h
    rfl
  | succ n ih =>
    intro g2 h
    simp only [genIter, Option.bind_eq_some, Option.map_eq_some'] at h
    obtain ⟨gm, hgm, ⟨rp, hnext, hsnd⟩⟩ := h
    obtain ⟨r, g3⟩ := rp
    have hmid := ih gm hgm
    subst hmid
    have hstep := (next_inv hnext).1
    simp only at hsnd
    subst hsnd
    rw [hstep]
    rfl

/-- Position stamped on the record of the (n+1)-st call. -/
theorem nthRecord_position {α : Type} (rnds : Nat → NextRand)
    (g : BaseRecordGenerator α) (n : Nat) (r : Record α)
    (h : nthRecord rnds g n = some r) : r.position = decRepr (g.count + n + 1) := by
  simp only [nthRecord, Option.bind_eq_some, Option.map_eq_some'] at h
  obtain ⟨gm, hgm, ⟨rp, hnext, hfst⟩⟩ := h
  obtain ⟨r2, g3⟩ := rp
  have hmid := genIter_inv rnds g n gm hgm
  subst hmid
  simp only at hfst
  subst hfst
  exact (next_inv hnext).2.1

/-! ## Unknown type tags -/

theorem genValue_unknown (r : Rand) (k : Nat) {t : String} (ht : t ∉ KnownTypes) :
    genValue r k t = none := by
  simp only [KnownTypes, List.mem_cons, List.not_mem_nil, or_false, not_or] at ht
  obtain ⟨h1, h2, h3, h4, h5, h6, h7, h8, h9, h10, h11⟩ := ht
  simp [genValue, h1, h2, h3, h4, h5, h6, h7, h8, h9, h10, h11]

theorem randomStructuredDataAux_unknown (r : Rand) :
    ∀ (fields : List (String × String)) (k : Nat),
      (∃ p ∈ fields, p.2 ∉ KnownTypes) →
      randomStructuredDataAux r k fields = none := by
  intro fields
  induction fields with
  | nil => intro k h; simp at h
  | cons p rest ih =>
    intro k h
    obtain ⟨f, t⟩ := p
    obtain ⟨q, hq, hqt⟩ := h
    rcases List.mem_cons.mp hq with rfl | hq2
    · simp [randomStructuredDataAux, genValue_unknown r k hqt]
    · have hrest := ih (k + 1) ⟨q, hq2, hqt⟩
      cases hgv : genValue r k t <;> simp [randomStructuredDataAux, hgv, hrest]

/-- The generator value `NewStructuredRecordGenerator` always returns. -/
def structuredGen (collection : String) (operations : List Operation)
    (fields : List (String × String)) (rs : Nat → Rand) :
    BaseRecordGenerator (List (String × Value)) :=
  { collection := collection, operations := operations,
    generateData := fun k => randomStructuredData (rs k) fields, count := 0 }

/-- The generator value `NewRawRecordGenerator` always returns. -/
def rawGen (collection : String) (operations : List Operation)
    (fields : List (String × String)) (rs : Nat → Rand) :
    BaseRecordGenerator Json :=
  { collection := collection, operations := operations,
    generateData := fun k => randomRawData (rs k) fields, count := 0 }

/-! ## Domain generator counters -/

theorem fhirIter_counter (rs : Nat → PatientRand) :
    ∀ n, (fhirIter rs n).patientIDCounter = n := by
  intro n
  induction n with
  | zero => rfl
  | succ n ih => simp [fhirIter, Generator.GenerateFHIRPatient, ih]

theorem nthFHIR_id (rs : Nat → PatientRand) (n : Nat) :
    (nthFHIR rs n).id = decRepr (n + 1) := by
  simp [nthFHIR, Generator.GenerateFHIRPatient, fhirIter_counter]

theorem hl7v3Iter_counter (rs : Nat → PatientRand) :
    ∀ n, (hl7v3Iter rs n).patientIDCounter = n := by
  intro n
  induction n with
  | zero => rfl
  | succ n ih => simp [hl7v3Iter, Generator.GenerateHL7v3Message, ih]

theorem nthHL7v3_id (rs : Nat → PatientRand) (n : Nat) :
    (nthHL7v3 rs n).id = n + 1 := by
  simp [nthHL7v3, Generator.GenerateHL7v3Message, hl7v3Iter_counter]

/-! ## Concrete fixtures for witnesses -/

/-- Constant randomness oracle used to instantiate witnesses. -/
def constRand : Rand :=
  { randInt := fun _ => 5, entropy := fun _ => 1234, word := fun _ => "word",
    name := fun _ => "Ada Lovelace", email := fun _ => "ada@example.com",
    uuid := fun _ => "00000000-0000-0000-0000-000000000000", now := 42 }

/-- Constant patient randomness used to instantiate witnesses. -/
def constPatientRand : PatientRand :=
  { firstName := "Ada", lastName := "Lovelace", street := "1 Main St",
    city := "Springfield", state := "IL", zip := "62701",
    genderPick := 0, yearPick := 0, monthPick := 0, dayPick := 0 }

/-- Constant per-call randomness used to instantiate witnesses. -/
def constNextRand : NextRand := { opPick := 0, key := "key", createdAt := 7 }

/-- Placeholder record for `Option.getD` projections in witnesses. -/
def recordDefault (α : Type) : Record α :=
  { position := "", operation := .create, collectionMeta := none, createdAt := 0,
    key := "", payloadBefore := none, payloadAfter := none }

/-! ## Claim theorems -/

/-- C1: for every record a produce-next call returns, the populated payload
slots are exactly those required by its operation tag — snapshot/create
populate only after, update populates both, delete populates only before. -/
theorem claim1_operation_slots {α : Type} (g : BaseRecordGenerator α) (rnd : NextRand)
    (r : Record α) (g2 : BaseRecordGenerator α) (h : g.next rnd = some (r, g2)) :
    (r.payloadBefore.isSome, r.payloadAfter.isSome) = specSlots r.operation :=
  (next_inv h).2.2.1

/-- Delete-only generator instantiating the C1 witness. -/
def c1gen : BaseRecordGenerator (List UInt8) :=
  { collection := "c", operations := [.delete], generateData := fun _ => some [65],
    count := 0 }

/-- Concrete outcome of one `Next` call on `c1gen`. -/
def c1pair : Record (List UInt8) × BaseRecordGenerator (List UInt8) :=
  (c1gen.next constNextRand).getD (recordDefault (List UInt8), c1gen)

/-- Witness for C1 at a concrete delete-only generator. -/
theorem claim1_witness :
    (c1pair.1.payloadBefore.isSome, c1pair.1.payloadAfter.isSome)
      = specSlots c1pair.1.operation :=
  claim1_operation_slots c1gen constNextRand c1pair.1 c1pair.2 rfl

/-- Limiter configuration of the C2 scenario: 150ms burst, 100ms sleep, no
steady-rate cap. -/
def c2Config : LimiterConfig := { burstDuration := 150, sleepDuration := 100, rateGap := 0 }

/-- C2 scenario start: bursting since t = 0, nothing emitted yet. -/
def c2Start : LimiterState := { phase := .bursting, phaseStart := 0, lastEmission := none }

/-- C2 state after the t = 0 attempt. -/
def c2AfterFirst : LimiterState := { phase := .bursting, phaseStart := 0, lastEmission := some 0 }

/-- C2 state after the t = 160 attempt: asleep since the burst window's end. -/
def c2Sleeping : LimiterState := { phase := .sleeping, phaseStart := 150, lastEmission := some 250 }

/-- C2: in the concrete burst scenario, the attempt at t=0 waits 0; the
attempt at t=160 moves the machine to the sleeping phase and waits the
remaining sleep time, 100ms minus the 10ms overage past the burst window; an
attempt at or after t=260 returns the machine to bursting and waits 0. -/
theorem claim2_burst_scenario :
    tick c2Config c2Start 0 = (0, c2AfterFirst) ∧
    tick c2Config c2AfterFirst 160 = (100 - (160 - 150), c2Sleeping) ∧
    (∀ t : Int, 260 ≤ t →
      (tick c2Config c2Sleeping t).1 = 0 ∧
      (tick c2Config c2Sleeping t).2.phase = .bursting) := by
  refine ⟨by decide, by decide, ?_⟩
  intro t ht
  have hrem : ¬ (t < (250 : Int)) := by omega
  constructor <;>
    simp [tick, sleepingWait, rateCapWait, c2Sleeping, c2Config, hrem]

/-- Witness for C2's universally quantified part, at t = 260. -/
theorem claim2_witness :
    ((260 : Int) ≤ 260) ∧
    (tick c2Config c2Sleeping 260).1 = 0 ∧
    (tick c2Config c2Sleeping 260).2.phase = .bursting :=
  ⟨by decide, (claim2_burst_scenario.2.2 260 (by decide)).1,
   (claim2_burst_scenario.2.2 260 (by decide)).2⟩

/-- C3: with only known type tags (and canonical gofakeit UUIDs), structured
generation never fails, the mapping has exactly one entry per specified field
name, and each value has its declared type's shape — in particular ssn is
XXX-XX- plus four digits, creditcard is exactly twelve literal X characters
plus four digits, employeeid is EMP plus four digits, and ordernumber is
ORD- plus a 36-character UUID. -/
theorem claim3_structured_shapes (r : Rand) (fields : List (String × String))
    (huuid : CanonicalUUIDs r) (hknown : ∀ p ∈ fields, p.2 ∈ KnownTypes) :
    ∃ m, randomStructuredData r fields = some m ∧
      m.map Prod.fst = fields.map Prod.fst ∧
      List.Forall₂ fieldValueMatches fields m := by
  obtain ⟨m, hm, hf⟩ := randomStructuredDataAux_known r huuid fields 0 hknown
  exact ⟨m, hm, randomStructuredDataAux_keys r fields 0 m hm, hf⟩

/-- Field specification exercising every known type tag. -/
def c3Fields : List (String × String) :=
  [("id", "int"), ("nm", "name"), ("mail", "email"), ("emp", "employeeid"),
   ("social", "ssn"), ("card", "creditcard"), ("ord", "ordernumber"),
   ("w", "string"), ("tm", "time"), ("ok", "bool"), ("dur", "duration")]

/-- Canonical-UUID contract holds for the constant oracle. -/
theorem constRand_uuid_canonical : CanonicalUUIDs constRand := by
  intro k
  show ("00000000-0000-0000-0000-000000000000" : String).length = 36 ∧
    ∀ c ∈ ("00000000-0000-0000-0000-000000000000" : String).data, uuidChar c = true
  exact ⟨by decide, by decide⟩

/-- Witness for C3 on a specification with all eleven known tags. -/
theorem claim3_witness :
    CanonicalUUIDs constRand ∧ (∀ p ∈ c3Fields, p.2 ∈ KnownTypes) ∧
    ∃ m, randomStructuredData constRand c3Fields = some m ∧
      m.map Prod.fst = c3Fields.map Prod.fst ∧
      List.Forall₂ fieldValueMatches c3Fields m :=
  ⟨constRand_uuid_canonical, by decide,
   claim3_structured_shapes constRand c3Fields constRand_uuid_canonical (by decide)⟩

/-- C4 counterexample: constructing a structured record generator over a
specification with the unknown type tag "bogus" does not fail — construction
returns the generator with a nil error, contradicting the claimed
construction-time failure. -/
theorem claim4_counterexample :
    NewStructuredRecordGenerator "c" [.create] [("f", "bogus")] (fun _ => constRand)
      = .ok (structuredGen "c" [.create] [("f", "bogus")] (fun _ => constRand)) := rfl

/-- C4 amended: construction of the structured and raw record generators
always succeeds, even with an unknown type tag; the malformed specification
is only detected at the first produce-next call, which aborts (the Go panic)
without producing a record. -/
theorem claim4_generation_time_failure (collection : String) (ops : List Operation)
    (fields : List (String × String)) (rs : Nat → Rand)
    (hunk : ∃ p ∈ fields, p.2 ∉ KnownTypes) (rnd : NextRand) :
    NewStructuredRecordGenerator collection ops fields rs
        = .ok (structuredGen collection ops fields rs) ∧
    (structuredGen collection ops fields rs).next rnd = none ∧
    NewRawRecordGenerator collection ops fields rs
        = .ok (rawGen collection ops fields rs) ∧
    (rawGen collection ops fields rs).next rnd = none := by
  have hnone : ∀ k, randomStructuredData (rs k) fields = none :=
    fun k => randomStructuredDataAux_unknown (rs k) fields 0 hunk
  refine ⟨rfl, ?_, rfl, ?_⟩
  · exact next_none _ _ fun j => hnone j
  · exact next_none _ _ fun j => by simp [rawGen, randomRawData, hnone j]

/-- Specification with an unknown type tag, for the C4 witness. -/
def c4Fields : List (String × String) := [("f", "bogus")]

/-- Witness for C4's amended statement at a concrete malformed field map. -/
theorem claim4_witness :
    (∃ p ∈ c4Fields, p.2 ∉ KnownTypes) ∧
    (NewStructuredRecordGenerator "c" [.create] c4Fields (fun _ => constRand)
        = .ok (structuredGen "c" [.create] c4Fields (fun _ => constRand)) ∧
      (structuredGen "c" [.create] c4Fields (fun _ => constRand)).next constNextRand = none ∧
      NewRawRecordGenerator "c" [.create] c4Fields (fun _ => constRand)
        = .ok (rawGen "c" [.create] c4Fields (fun _ => constRand)) ∧
      (rawGen "c" [.create] c4Fields (fun _ => constRand)).next constNextRand = none) :=
  ⟨by decide,
   claim4_generation_time_failure "c" [.create] c4Fields (fun _ => constRand)
     (by decide) constNextRand⟩

/-- C5: the raw payload is exactly the JSON marshalling of a structured
payload from the same specification (not an independent code path), and the
deserialized object's key set is exactly the specified field names. -/
theorem claim5_raw_roundtrip (r : Rand) (fields : List (String × String)) :
    randomRawData r fields = (randomStructuredData r fields).map encodeStructured ∧
    ∀ m, randomStructuredData r fields = some m →
      randomRawData r fields = some (Json.obj (m.map fun p => (p.1, encodeValue p.2))) ∧
      (m.map fun p => (p.1, encodeValue p.2)).map Prod.fst = fields.map Prod.fst := by
  refine ⟨rfl, fun m hm => ⟨?_, ?_⟩⟩
  · simp [randomRawData, hm, encodeStructured]
  · rw [List.map_map]
    have hcomp : (Prod.fst ∘ fun p : String × Value => (p.1, encodeValue p.2)) = Prod.fst := rfl
    rw [hcomp]
    exact randomStructuredDataAux_keys r fields 0 m hm

/-- Small specification for the C5 witness. -/
def c5Fields : List (String × String) := [("a", "int"), ("b", "ssn")]

/-- Structured mapping actually produced on `c5Fields`. -/
def c5m : List (String × Value) := (randomStructuredData constRand c5Fields).getD []

/-- Witness for C5 at a concrete specification. -/
theorem claim5_witness :
    (randomStructuredData constRand c5Fields = some c5m) ∧
    randomRawData constRand c5Fields
      = (randomStructuredData constRand c5Fields).map encodeStructured ∧
    randomRawData constRand c5Fields
      = some (Json.obj (c5m.map fun p => (p.1, encodeValue p.2))) ∧
    (c5m.map fun p => (p.1, encodeValue p.2)).map Prod.fst = c5Fields.map Prod.fst :=
  ⟨rfl, (claim5_raw_roundtrip constRand c5Fields).1,
   ((claim5_raw_roundtrip constRand c5Fields).2 c5m rfl).1,
   ((claim5_raw_roundtrip constRand c5Fields).2 c5m rfl).2⟩

/-- C6: on any fresh domain document generator instance, the n-th document's
identity equals n — the resource-style JSON patient carries the stringified
counter, the XML patient the counter itself — in strictly increasing order,
and the first document of every fresh instance has identity 1. -/
theorem claim6_counter_identities (rs rs2 : Nat → PatientRand) :
    (∀ n, (nthFHIR rs n).id = decRepr (n + 1)) ∧
    (nthFHIR rs 0).id = "1" ∧
    (∀ m n, m ≠ n → (nthFHIR rs m).id ≠ (nthFHIR rs n).id) ∧
    (∀ n, (nthHL7v3 rs2 n).id = n + 1) ∧
    (nthHL7v3 rs2 0).id = 1 ∧
    (∀ m n, m < n → (nthHL7v3 rs2 m).id < (nthHL7v3 rs2 n).id) := by
  refine ⟨nthFHIR_id rs, ?_, ?_, nthHL7v3_id rs2, ?_, ?_⟩
  · rw [nthFHIR_id]; decide
  · intro m n hmn
    rw [nthFHIR_id, nthFHIR_id]
    intro h
    exact hmn (by simpa using decRepr_injective h)
  · rw [nthHL7v3_id]
  · intro m n hmn
    rw [nthHL7v3_id, nthHL7v3_id]
    omega

/-- Witness for C6 at a constant oracle, comparing the first two documents. -/
theorem claim6_witness :
    (nthFHIR (fun _ => constPatientRand) 0).id = decRepr 1 ∧
    (nthFHIR (fun _ => constPatientRand) 0).id = "1" ∧
    ((0 : Nat) ≠ 1 ∧
      (nthFHIR (fun _ => constPatientRand) 0).id ≠ (nthFHIR (fun _ => constPatientRand) 1).id) ∧
    (nthHL7v3 (fun _ => constPatientRand) 0).id = 0 + 1 ∧
    (nthHL7v3 (fun _ => constPatientRand) 0).id = 1 ∧
    ((0 : Nat) < 1 ∧
      (nthHL7v3 (fun _ => constPatientRand) 0).id < (nthHL7v3 (fun _ => constPatientRand) 1).id) :=
  ⟨(claim6_counter_identities (fun _ => constPatientRand) (fun _ => constPatientRand)).1 0,
   (claim6_counter_identities (fun _ => constPatientRand) (fun _ => constPatientRand)).2.1,
   ⟨by decide,
    (claim6_counter_identities (fun _ => constPatientRand) (fun _ => constPatientRand)).2.2.1
      0 1 (by decide)⟩,
   (claim6_counter_identities (fun _ => constPatientRand) (fun _ => constPatientRand)).2.2.2.1 0,
   (claim6_counter_identities (fun _ => constPatientRand) (fun _ => constPatientRand)).2.2.2.2.1,
   ⟨by decide,
    (claim6_counter_identities (fun _ => constPatientRand) (fun _ => constPatientRand)).2.2.2.2.2
      0 1 (by decide)⟩⟩

/-- C7 counterexample: the 10000th document produced by the message-style XML
generator carries identity 10000, outside [0,9999] — the identity element is
the unbounded per-instance counter, so the claimed bound fails on long runs. -/
theorem claim7_counterexample :
    (nthHL7v3 (fun _ => constPatientRand) 9999).id = 10000 ∧
    ¬ (nthHL7v3 (fun _ => constPatientRand) 9999).id ≤ 9999 := by
  have h := nthHL7v3_id (fun _ => constPatientRand) 9999
  exact ⟨h, by rw [h]; omega⟩

/-- C7 amended: the XML document identity equals the per-instance counter
(the (n+1)-st document carries n+1), so it lies in [0,9999] exactly while the
counter has not exceeded 9999 — a representational limit for long runs, not
an enforced bound. -/
theorem claim7_id_bounded_only_initially (rs : Nat → PatientRand) (n : Nat)
    (h : n + 1 ≤ 9999) :
    (nthHL7v3 rs n).id = n + 1 ∧ (nthHL7v3 rs n).id ≤ 9999 := by
  have hid := nthHL7v3_id rs n
  exact ⟨hid, by omega⟩

/-- Witness for C7's amended statement at the first document. -/
theorem claim7_witness :
    ((0 : Nat) + 1 ≤ 9999) ∧
    (nthHL7v3 (fun _ => constPatientRand) 0).id = 0 + 1 ∧
    (nthHL7v3 (fun _ => constPatientRand) 0).id ≤ 9999 :=
  ⟨by decide,
   (claim7_id_bounded_only_initially (fun _ => constPatientRand) 0 (by decide)).1,
   (claim7_id_bounded_only_initially (fun _ => constPatientRand) 0 (by decide)).2⟩

/-- C8: on a fresh generator instance, the n-th record's position token is
the decimal string of n — a stringified monotonically increasing counter
starting at 1 — and position tokens of distinct calls are never equal. -/
theorem claim8_positions {α : Type} (g : BaseRecordGenerator α) (rnds : Nat → NextRand)
    (h0 : g.count = 0) :
    (∀ n r, nthRecord rnds g n = some r → r.position = decRepr (n + 1)) ∧
    (∀ m n rm rn, nthRecord rnds g m = some rm → nthRecord rnds g n = some rn →
      m ≠ n → rm.position ≠ rn.position) := by
  have hpos : ∀ n r, nthRecord rnds g n = some r → r.position = decRepr (n + 1) := by
    intro n r h
    have hp := nthRecord_position rnds g n r h
    rw [h0] at hp
    simpa using hp
  refine ⟨hpos, ?_⟩
  intro m n rm rn hm hn hmn
  rw [hpos m rm hm, hpos n rn hn]
  intro h
  exact hmn (by simpa using decRepr_injective h)

/-- Create-only generator instantiating the C8 witness. -/
def c8gen : BaseRecordGenerator (List UInt8) :=
  { collection := "c8", operations := [.create], generateData := fun _ => some [66],
    count := 0 }

/-- First record of `c8gen`. -/
def c8rec0 : Record (List UInt8) :=
  (nthRecord (fun _ => constNextRand) c8gen 0).getD (recordDefault (List UInt8))

/-- Second record of `c8gen`. -/
def c8rec1 : Record (List UInt8) :=
  (nthRecord (fun _ => constNextRand) c8gen 1).getD (recordDefault (List UInt8))

/-- Witness for C8 on the first two records of a concrete generator. -/
theorem claim8_witness :
    c8gen.count = 0 ∧
    c8rec0.position = decRepr (0 + 1) ∧
    c8rec1.position = decRepr (1 + 1) ∧
    c8rec0.position ≠ c8rec1.position :=
  ⟨rfl,
   (claim8_positions c8gen (fun _ => constNextRand) rfl).1 0 c8rec0 rfl,
   (claim8_positions c8gen (fun _ => constNextRand) rfl).1 1 c8rec1 rfl,
   (claim8_positions c8gen (fun _ => constNextRand) rfl).2 0 1 c8rec0 c8rec1 rfl rfl
     (by decide)⟩

/-- C9: file-backed generation — construction with an unreadable file errors
and produces no generator; after successful construction every closure call
returns the construction-time bytes, and every payload slot of every record
holds exactly those bytes (the model has no later file access at all, so a
changed file cannot influence the output). -/
theorem claim9_file_generator (collection : String) (operations : List Operation)
    (bytes : List UInt8) :
    (∀ g, NewFileRecordGenerator collection operations none ≠ .ok g) ∧
    ∀ g, NewFileRecordGenerator collection operations (some bytes) = .ok g →
      (∀ k, g.generateData k = some bytes) ∧
      ∀ rnds n r, nthRecord rnds g n = some r →
        (r.payloadBefore = none ∨ r.payloadBefore = some bytes) ∧
        (r.payloadAfter = none ∨ r.payloadAfter = some bytes) := by
  constructor
  · intro g h
    exact Except.noConfusion h
  · intro g h
    have hg := (Except.ok.inj h).symm
    subst hg
    refine ⟨fun _ => rfl, ?_⟩
    intro rnds n r hr
    simp only [nthRecord, Option.bind_eq_some, Option.map_eq_some'] at hr
    obtain ⟨gm, hgm, ⟨rp, hnext, hfst⟩⟩ := hr
    obtain ⟨r2, g3⟩ := rp
    have hmid := genIter_inv rnds _ n gm hgm
    subst hmid
    simp only at hfst
    subst hfst
    obtain ⟨-, -, -, hbefore, hafter⟩ := next_inv hnext
    constructor
    · cases hpb : r2.payloadBefore with
      | none => exact Or.inl rfl
      | some d =>
        obtain ⟨j, hj⟩ := hbefore d hpb
        have hd : bytes = d := by simpa using hj
        exact Or.inr (congrArg some hd.symm)
    · cases hpa : r2.payloadAfter with
      | none => exact Or.inl rfl
      | some d =>
        obtain ⟨j, hj⟩ := hafter d hpa
        have hd : bytes = d := by simpa using hj
        exact Or.inr (congrArg some hd.symm)

/-- Bytes cached by the C9 witness generator. -/
def c9bytes : List UInt8 := [1, 2, 3]

/-- File-backed generator of the C9 witness (update-only, so both slots are
populated with the cached bytes). -/
def c9gen : BaseRecordGenerator (List UInt8) :=
  { collection := "files", operations := [.update], generateData := fun _ => some c9bytes,
    count := 0 }

/-- First record of `c9gen`. -/
def c9rec : Record (List UInt8) :=
  (nthRecord (fun _ => constNextRand) c9gen 0).getD (recordDefault (List UInt8))

/-- Witness for C9 at a concrete file-backed generator. -/
theorem claim9_witness :
    (NewFileRecordGenerator "files" [.update] (some c9bytes) = .ok c9gen) ∧
    c9gen.generateData 0 = some c9bytes ∧
    (c9rec.payloadBefore = none ∨ c9rec.payloadBefore = some c9bytes) ∧
    (c9rec.payloadAfter = none ∨ c9rec.payloadAfter = some c9bytes) :=
  ⟨rfl,
   ((claim9_file_generator "files" [.update] c9bytes).2 c9gen rfl).1 0,
   (((claim9_file_generator "files" [.update] c9bytes).2 c9gen rfl).2
     (fun _ => constNextRand) 0 c9rec rfl).1,
   (((claim9_file_generator "files" [.update] c9bytes).2 c9gen rfl).2
     (fun _ => constNextRand) 0 c9rec rfl).2⟩

/-- C10: ObfuscateSSN returns XXX-XX- plus the third dash-separated part when
the split has exactly 3 parts; otherwise, for inputs of length at least 4, it
returns XXX-XX- plus the last four characters; and for shorter inputs that do
not split into 3 parts — the empty string among them — the slice is out of
range and the call aborts. -/
theorem claim10_obfuscate_ssn :
    (∀ s : String, (splitDash s).length = 3 →
      ObfuscateSSN s = some ("XXX-XX-" ++ (splitDash s).getD 2 "")) ∧
    (∀ s : String, (splitDash s).length ≠ 3 → 4 ≤ s.length →
      ObfuscateSSN s = some ("XXX-XX-" ++ String.mk (s.data.drop (s.length - 4)))) ∧
    (∀ s : String, (splitDash s).length ≠ 3 → s.length < 4 →
      ObfuscateSSN s = none) ∧
    ObfuscateSSN "" = none := by
  refine ⟨?_, ?_, ?_, by decide⟩
  · intro s h3
    simp [ObfuscateSSN, h3]
  · intro s h3 h4
    simp [ObfuscateSSN, h3, h4]
  · intro s h3 h4
    simp [ObfuscateSSN, h3, show ¬ (4 ≤ s.length) by omega]

/-- Witness for C10 at one input per branch. -/
theorem claim10_witness :
    ((splitDash "123-45-6789").length = 3 ∧
      ObfuscateSSN "123-45-6789" = some ("XXX-XX-" ++ (splitDash "123-45-6789").getD 2 "")) ∧
    ((splitDash "987654321").length ≠ 3 ∧ 4 ≤ ("987654321" : String).length ∧
      ObfuscateSSN "987654321"
        = some ("XXX-XX-" ++
            String.mk (("987654321" : String).data.drop (("987654321" : String).length - 4)))) ∧
    ((splitDash "ab").length ≠ 3 ∧ ("ab" : String).length < 4 ∧
      ObfuscateSSN "ab" = none) :=
  ⟨⟨by decide, claim10_obfuscate_ssn.1 "123-45-6789" (by decide)⟩,
   ⟨by decide, by decide, claim10_obfuscate_ssn.2.1 "987654321" (by decide) (by decide)⟩,
   ⟨by decide, by decide, claim10_obfuscate_ssn.2.2.1 "ab" (by decide) (by decide)⟩⟩

end EnhancedGenerator
